import Mathlib

/-!
Shallow embedding of the AGS3870 CH4 sensor driver (src/AGS3870.cpp).

The two-wire bus is an external collaborator; a register read's observable
bus behaviour is captured by a `BusRead` record (the `endTransmission`
status code, the byte count returned by `requestFrom`, and the five values
produced by successive `read()` calls), and a register write's behaviour by
a `BusWrite` record (its `endTransmission` status code).  Driver state is an
explicit `AGS3870` record threaded through each operation.  Machine bytes
are `Nat` with `% 256` applied exactly where the C code truncates to
`uint8_t`; the `int _error` slot is `Int`.
-/

namespace AGS3870Spec

/-- Modelled from the spec: the header AGS3870.h (not in src/) defines the
error-code constants.  The spec (§7) lists the error kinds — OK,
bus-transport code propagated verbatim (0 = success), read-error,
CRC-mismatch, sensor-not-ready — as distinct scalar values; `AGS3870_OK`
must be 0 because the code treats the transport success code 0 and OK
interchangeably.  The remaining constants follow the library family's
convention of distinct negative values, which no transport status code
(a `uint8_t`) can collide with. -/
def AGS3870_OK : Int := 0

/-- Modelled from the spec: CRC-mismatch error constant from the missing
header, a distinct non-OK value. -/
def AGS3870_ERROR_CRC : Int := -101

/-- Modelled from the spec: read-error (fewer than expected bytes)
constant from the missing header, a distinct non-OK value. -/
def AGS3870_ERROR_READ : Int := -102

/-- Modelled from the spec: sensor-not-ready error constant from the
missing header, a distinct non-OK value. -/
def AGS3870_ERROR_NOT_READY : Int := -103

/-- One inner iteration of the CRC-8 loop of `AGS3870::_CRC8`:
`if (crc & 0x80) crc = (crc << 1) ^ 0x31; else crc = (crc << 1);`
with the result truncated to 8 bits (`crc` is `uint8_t`). -/
def crcStep (crc : Nat) : Nat :=
  if crc &&& 0x80 ≠ 0 then ((crc <<< 1) ^^^ 0x31) % 256
  else (crc <<< 1) % 256

/-- Processing of one buffer byte in `AGS3870::_CRC8`:
`crc ^= buf[b];` followed by eight `crcStep` iterations. -/
def crc8Update (crc b : Nat) : Nat :=
  crcStep^[8] (crc ^^^ b)

/-- `AGS3870::_CRC8(buf, size)`: start value `0xFF`, fold `crc8Update`
over the first `size` bytes of the buffer. -/
def _CRC8 (buf : List Nat) (size : Nat) : Nat :=
  (buf.take size).foldl crc8Update 0xFF

/-- Observable behaviour of the bus during one `_readRegister` call:
the status returned by `endTransmission` (a `uint8_t`, 0 = success), the
byte count returned by `requestFrom`, and the five values the successive
`read()` calls would yield. -/
structure BusRead where
  endStatus : Nat
  avail : Nat
  bytes : Fin 5 → Nat

/-- Observable behaviour of the bus during one `_writeRegister` call:
the status returned by `endTransmission` (0 = success). -/
structure BusWrite where
  endStatus : Nat

/-- The driver state: `_buffer`, `_error`, `_status`, `_lastPPM`,
`_lastRead`, `_startTime` members of the C++ class. -/
structure AGS3870 where
  buffer : List Nat
  error : Int
  status : Nat
  lastPPM : Nat
  lastRead : Nat
  startTime : Nat
deriving Repr, DecidableEq

/-- The five bytes `_readRegister` copies into `_buffer` on success:
each `read()` value truncated to `uint8_t` by the assignment
`_buffer[i] = _wire->read();`. -/
def readFrame (bus : BusRead) : List Nat :=
  List.ofFn fun i : Fin 5 => bus.bytes i % 256

/-- `AGS3870::_readRegister(reg)`: record the `endTransmission` status in
`_error` and fail if non-zero; fail with `AGS3870_ERROR_READ` if
`requestFrom` yields fewer than 5 bytes; otherwise copy the 5 received
bytes into `_buffer` in order and record OK. -/
def _readRegister (bus : BusRead) (s : AGS3870) : Bool × AGS3870 :=
  let s1 : AGS3870 := { s with error := (bus.endStatus : Int) }
  if s1.error ≠ 0 then (false, s1)
  else if bus.avail ≠ 5 then (false, { s1 with error := AGS3870_ERROR_READ })
  else (true, { s1 with buffer := readFrame bus, error := AGS3870_OK })

/-- `AGS3870::_writeRegister(reg)`: the address byte and the 5 buffer
bytes are queued, then `_error = endTransmission(true)`; returns
`_error == 0`. -/
def _writeRegister (bus : BusWrite) (s : AGS3870) : Bool × AGS3870 :=
  let s1 : AGS3870 := { s with error := (bus.endStatus : Int) }
  (decide (bus.endStatus = 0), s1)

/-- `AGS3870::_getDataMSB()`: `(_buffer[0] << 8) + _buffer[1]`. -/
def _getDataMSB (s : AGS3870) : Nat :=
  (s.buffer.getD 0 0 <<< 8) + s.buffer.getD 1 0

/-- `AGS3870::_getDataLSB()`: `(_buffer[2] << 8) + _buffer[3]`. -/
def _getDataLSB (s : AGS3870) : Nat :=
  (s.buffer.getD 2 0 <<< 8) + s.buffer.getD 3 0

/-- `AGS3870::_readSensor()`: read the PPM register; on success record OK,
latch the status byte, record not-ready if its bit 0 is set, decode the
24-bit big-endian value from bytes 1–3, and overwrite the error with
CRC-mismatch if the 5-byte CRC check fails.  The decoded value is
returned regardless of the error state. -/
def _readSensor (bus : BusRead) (s : AGS3870) : Nat × AGS3870 :=
  match _readRegister bus s with
  | (false, s1) => (0, s1)
  | (true, s1) =>
    let s2 : AGS3870 := { s1 with error := AGS3870_OK, status := s1.buffer.getD 0 0 }
    let s3 : AGS3870 :=
      if s2.status &&& 0x01 ≠ 0 then { s2 with error := AGS3870_ERROR_NOT_READY } else s2
    let value : Nat :=
      s3.buffer.getD 1 0 * 65536 + s3.buffer.getD 2 0 * 256 + s3.buffer.getD 3 0
    let s4 : AGS3870 :=
      if _CRC8 s3.buffer 5 ≠ 0 then { s3 with error := AGS3870_ERROR_CRC } else s3
    (value, s4)

/-- `AGS3870::readPPM()`: invoke `_readSensor`; if the error state is OK,
update `_lastRead` (to `millis()`, modelled by `now`) and `_lastPPM` and
return the fresh value, else return the cached `_lastPPM`. -/
def readPPM (bus : BusRead) (now : Nat) (s : AGS3870) : Nat × AGS3870 :=
  let r := _readSensor bus s
  if r.2.error = AGS3870_OK then
    (r.1, { r.2 with lastRead := now, lastPPM := r.1 })
  else
    (r.2.lastPPM, r.2)

/-- `AGS3870::readResistance()`: read the resistance register; on success
decode the 24-bit big-endian value from bytes 0–2 and record CRC-mismatch
if the 5-byte check fails; return `value * 10` (value stays 0 when the
read failed). -/
def readResistance (bus : BusRead) (s : AGS3870) : Nat × AGS3870 :=
  match _readRegister bus s with
  | (false, s1) => (0 * 10, s1)
  | (true, s1) =>
    let value : Nat :=
      s1.buffer.getD 0 0 * 65536 + s1.buffer.getD 1 0 * 256 + s1.buffer.getD 2 0
    let s2 : AGS3870 :=
      if _CRC8 s1.buffer 5 ≠ 0 then { s1 with error := AGS3870_ERROR_CRC } else s1
    (value * 10, s2)

/-- `AGS3870::manualZeroCalibration(value)`: buffer bytes
`[0x00, 0x00, value >> 8, value & 0xFF]` (the shift cast to `uint8_t`),
byte 4 the CRC-8 over the first four, then `_writeRegister` to the
calibration register. -/
def manualZeroCalibration (bus : BusWrite) (value : Nat) (s : AGS3870) : Bool × AGS3870 :=
  let payload : List Nat := [0x00, 0x00, (value >>> 8) % 256, value &&& 0xFF]
  _writeRegister bus { s with buffer := payload ++ [_CRC8 payload 4] }

/-- Modelled from the spec: the record `AGS3870::ZeroCalibrationData` is
declared in the missing header; the spec (§3) describes it as a plain
record of the two 16-bit big-endian halves of the payload
(status word, value word). -/
structure ZeroCalibrationData where
  status : Nat
  value : Nat
deriving Repr, DecidableEq

/-- Modelled from the spec: the record `AGS3870::RegisterData` is declared
in the missing header; the spec (§3) describes it as a plain record of the
raw 4 data bytes, the CRC byte and a validity flag. -/
structure RegisterData where
  data : List Nat
  crc : Nat
  crcValid : Bool
deriving Repr, DecidableEq

/-- `AGS3870::getZeroCalibrationData(data)`: fail (leaving `data`
untouched) if `_readRegister` fails; fail with CRC-mismatch (leaving
`data` untouched) if the 5-byte check is non-zero; otherwise record OK and
populate `data` from the two big-endian 16-bit halves. -/
def getZeroCalibrationData (bus : BusRead) (s : AGS3870) (data : ZeroCalibrationData) :
    Bool × AGS3870 × ZeroCalibrationData :=
  match _readRegister bus s with
  | (false, s1) => (false, s1, data)
  | (true, s1) =>
    if _CRC8 s1.buffer 5 ≠ 0 then
      (false, { s1 with error := AGS3870_ERROR_CRC }, data)
    else
      (true, { s1 with error := AGS3870_OK },
        { status := _getDataMSB s1, value := _getDataLSB s1 })

/-- `AGS3870::readRegister(address, reg)`: fail (leaving `reg` untouched)
if `_readRegister` fails; fail with CRC-mismatch (leaving `reg` untouched)
if the 5-byte check is non-zero; otherwise record OK and populate `reg`
with the 4 data bytes, the CRC byte, and `crcValid = true`. -/
def readRegister (bus : BusRead) (address : Nat) (s : AGS3870) (reg : RegisterData) :
    Bool × AGS3870 × RegisterData :=
  match _readRegister bus s with
  | (false, s1) => (false, s1, reg)
  | (true, s1) =>
    if _CRC8 s1.buffer 5 ≠ 0 then
      (false, { s1 with error := AGS3870_ERROR_CRC }, reg)
    else
      (true, { s1 with error := AGS3870_OK },
        { data := [s1.buffer.getD 0 0, s1.buffer.getD 1 0,
                   s1.buffer.getD 2 0, s1.buffer.getD 3 0],
          crc := s1.buffer.getD 4 0,
          crcValid := true })

/-- `AGS3870::lastError()`: return the current `_error` and reset the slot
to OK. -/
def lastError (s : AGS3870) : Int × AGS3870 :=
  (s.error, { s with error := AGS3870_OK })

/-- `AGS3870::reset()`: `_startTime = millis()` (modelled by `now`),
`_lastRead = 0`, `_lastPPM = 0`, `_status = OK`, `_error = OK`. -/
def reset (now : Nat) (s : AGS3870) : AGS3870 :=
  { s with startTime := now, lastRead := 0, lastPPM := 0, status := 0,
           error := AGS3870_OK }

/-- A concrete driver state used for concrete evaluations. -/
def initState : AGS3870 :=
  { buffer := [0, 0, 0, 0, 0], error := 0, status := 0, lastPPM := 0,
    lastRead := 0, startTime := 0 }

/-- A concrete state holding a previously cached PPM value 5 read at
time 7. -/
def cachedState : AGS3870 :=
  { initState with lastPPM := 5, lastRead := 7 }

/-- A concrete bus interaction: successful I/O, sensor ready (status byte
0), decoded value 1, but a CRC byte (171) that fails the 5-byte check. -/
def crcFailBus : BusRead :=
  ⟨0, 5, fun i => [0, 0, 0, 1, 171].getD i.val 0⟩

/-- A concrete bus interaction: successful I/O, status byte 1 (bit 0 set,
sensor not ready), decoded value 2, valid CRC byte 46. -/
def notReadyBus : BusRead :=
  ⟨0, 5, fun i => [1, 0, 0, 2, 46].getD i.val 0⟩

/-- A concrete bus interaction for the resistance register: successful
I/O, raw bytes {0x00, 0x00, 0x05}, valid CRC byte 160. -/
def resistanceBus : BusRead :=
  ⟨0, 5, fun i => [0, 0, 5, 0, 160].getD i.val 0⟩

/-- A concrete failing bus interaction: `endTransmission` returns
transport code 2 (address NACK). -/
def failBus : BusRead :=
  ⟨2, 5, fun i => [0, 0, 5, 0, 160].getD i.val 0⟩

/-!  ### Helper lemmas -/

/-- `_readRegister` explicit case analysis: transport failure records the
transport code, a short read records `AGS3870_ERROR_READ`, success copies
the frame and records OK. -/
theorem readRegister_low_eq (bus : BusRead) (s : AGS3870) :
    _readRegister bus s =
      if bus.endStatus ≠ 0 then (false, { s with error := (bus.endStatus : Int) })
      else if bus.avail ≠ 5 then (false, { s with error := AGS3870_ERROR_READ })
      else (true, { s with buffer := readFrame bus, error := AGS3870_OK }) := by
  by_cases h1 : bus.endStatus = 0 <;> by_cases h2 : bus.avail = 5 <;>
    simp [_readRegister, h1, h2]

/-- `_readRegister` never touches the PPM cache or its timestamp. -/
theorem readRegister_low_preserves (bus : BusRead) (s : AGS3870) :
    (_readRegister bus s).2.lastPPM = s.lastPPM ∧
    (_readRegister bus s).2.lastRead = s.lastRead := by
  rw [readRegister_low_eq]
  split_ifs <;> simp

/-- `_readSensor` never touches the PPM cache or its timestamp. -/
theorem readSensor_preserves (bus : BusRead) (s : AGS3870) :
    (_readSensor bus s).2.lastPPM = s.lastPPM ∧
    (_readSensor bus s).2.lastRead = s.lastRead := by
  obtain ⟨h1, h2⟩ := readRegister_low_preserves bus s
  unfold _readSensor
  rcases hr : _readRegister bus s with ⟨b, s1⟩
  rw [hr] at h1 h2
  cases b
  · simpa using ⟨h1, h2⟩
  · simp only
    split_ifs <;> simp_all

/-- On success, `_readRegister` returns the received frame with error OK
and the transport conditions hold. -/
theorem readRegister_low_success (bus : BusRead) (s : AGS3870)
    (hEnd : bus.endStatus = 0) (hAvail : bus.avail = 5) :
    _readRegister bus s =
      (true, { s with buffer := readFrame bus, error := AGS3870_OK }) := by
  rw [readRegister_low_eq]
  simp [hEnd, hAvail]

/-- Feeding the current CRC state back into `crc8Update` yields 0: the
XOR cancels and the eight shift steps keep 0 at 0. -/
theorem crc8Update_self (c : Nat) : crc8Update c c = 0 := by
  simp only [crc8Update, Nat.xor_self]
  decide

/-- `_readSensor` under successful I/O: the decoded 24-bit value from
frame bytes 1–3 is returned, the status byte is latched, and the error is
CRC-mismatch when the 5-byte check fails, else not-ready when status
bit 0 is set, else OK. -/
theorem readSensor_success_eq (bus : BusRead) (s : AGS3870)
    (hEnd : bus.endStatus = 0) (hAvail : bus.avail = 5) :
    _readSensor bus s =
      ((readFrame bus).getD 1 0 * 65536 + (readFrame bus).getD 2 0 * 256 +
         (readFrame bus).getD 3 0,
       { s with buffer := readFrame bus,
                status := (readFrame bus).getD 0 0,
                error :=
                  if _CRC8 (readFrame bus) 5 ≠ 0 then AGS3870_ERROR_CRC
                  else if (readFrame bus).getD 0 0 &&& 0x01 ≠ 0 then
                    AGS3870_ERROR_NOT_READY
                  else AGS3870_OK }) := by
  unfold _readSensor
  rw [readRegister_low_success bus s hEnd hAvail]
  simp only
  split_ifs <;> simp_all

/-!  ### Claim theorems -/

/-- C1: `readPPM()` returns the freshly decoded value and updates the
last-known-good cache and its timestamp when the decode leaves the error
state OK; on any other error state it returns the previously cached value
and leaves the cache and timestamp unchanged (the decode step itself
never touches them). -/
theorem readPPM_fallback_contract (bus : BusRead) (now : Nat) (s : AGS3870) :
    readPPM bus now s =
      (if (_readSensor bus s).2.error = AGS3870_OK then
        ((_readSensor bus s).1,
         { (_readSensor bus s).2 with
             lastRead := now, lastPPM := (_readSensor bus s).1 })
      else (s.lastPPM, (_readSensor bus s).2)) ∧
    (_readSensor bus s).2.lastPPM = s.lastPPM ∧
    (_readSensor bus s).2.lastRead = s.lastRead := by
  obtain ⟨h1, h2⟩ := readSensor_preserves bus s
  refine ⟨?_, h1, h2⟩
  by_cases h : (_readSensor bus s).2.error = AGS3870_OK <;>
    simp [readPPM, h, h1]

set_option maxRecDepth 4000 in
/-- C2 counterexample: a PPM read with successful bus I/O (end status 0,
five bytes available) and a ready sensor (status byte 0) whose CRC check
fails does NOT update the last-known-good cache with the freshly decoded
value 1 — the cache stays at its old value 5 and timestamp 7. -/
theorem readPPM_cache_crc_counterexample :
    crcFailBus.endStatus = 0 ∧ crcFailBus.avail = 5 ∧
    (readFrame crcFailBus).getD 0 0 &&& 0x01 = 0 ∧
    _CRC8 (readFrame crcFailBus) 5 ≠ 0 ∧
    (_readSensor crcFailBus cachedState).1 = 1 ∧
    (readPPM crcFailBus 100 cachedState).2.lastPPM = 5 ∧
    (readPPM crcFailBus 100 cachedState).2.lastRead = 7 := by
  decide

/-- C2 (amended): the cache update requires the whole decode to leave the
error state OK, which includes CRC validity: when bus I/O succeeds but
the CRC check over the received frame fails, the cache and timestamp are
unchanged, the cached value is returned, and the error is CRC-mismatch. -/
theorem readPPM_cache_requires_crc (bus : BusRead) (now : Nat) (s : AGS3870)
    (hEnd : bus.endStatus = 0) (hAvail : bus.avail = 5)
    (hCrc : _CRC8 (readFrame bus) 5 ≠ 0) :
    (readPPM bus now s).1 = s.lastPPM ∧
    (readPPM bus now s).2.lastPPM = s.lastPPM ∧
    (readPPM bus now s).2.lastRead = s.lastRead ∧
    (readPPM bus now s).2.error = AGS3870_ERROR_CRC := by
  unfold readPPM
  rw [readSensor_success_eq bus s hEnd hAvail]
  simp [hCrc, AGS3870_ERROR_CRC, AGS3870_OK]

set_option maxRecDepth 4000 in
theorem readPPM_cache_requires_crc_witness :
    (readPPM crcFailBus 100 cachedState).1 = 5 ∧
    (readPPM crcFailBus 100 cachedState).2.lastPPM = 5 := by
  have h := readPPM_cache_requires_crc crcFailBus 100 cachedState rfl rfl (by decide)
  exact ⟨h.1.trans (by decide), h.2.1.trans (by decide)⟩

/-- C3: CRC-8 round trip — for every 4-byte payload, appending the CRC-8
(poly 0x31, init 0xFF, MSB-first) computed over the 4 bytes as a 5th byte
makes the 5-byte check yield exactly 0. -/
theorem crc8_roundtrip (b0 b1 b2 b3 : Nat) :
    _CRC8 [b0, b1, b2, b3, _CRC8 [b0, b1, b2, b3] 4] 5 = 0 := by
  show List.foldl crc8Update 0xFF
      [b0, b1, b2, b3, List.foldl crc8Update 0xFF [b0, b1, b2, b3]] = 0
  simp only [List.foldl]
  exact crc8Update_self _

/-- C4: strict decoder atomicity — on a failed 5-byte read or a failed
CRC check, `getZeroCalibrationData` and `readRegister` return failure and
leave the caller-supplied record untouched; only on full success are the
fields populated (two big-endian 16-bit halves for calibration data, the
raw bytes, CRC byte and validity flag for a generic register). -/
theorem strict_decoders_atomic (bus : BusRead) (addr : Nat) (s : AGS3870)
    (d : ZeroCalibrationData) (r : RegisterData) :
    ((_readRegister bus s).1 = false →
      getZeroCalibrationData bus s d = (false, (_readRegister bus s).2, d) ∧
      readRegister bus addr s r = (false, (_readRegister bus s).2, r)) ∧
    ((_readRegister bus s).1 = true → _CRC8 (readFrame bus) 5 ≠ 0 →
      (getZeroCalibrationData bus s d).1 = false ∧
      (getZeroCalibrationData bus s d).2.2 = d ∧
      (readRegister bus addr s r).1 = false ∧
      (readRegister bus addr s r).2.2 = r) ∧
    ((_readRegister bus s).1 = true → _CRC8 (readFrame bus) 5 = 0 →
      (getZeroCalibrationData bus s d).1 = true ∧
      (getZeroCalibrationData bus s d).2.2 =
        ⟨(readFrame bus).getD 0 0 <<< 8 + (readFrame bus).getD 1 0,
         (readFrame bus).getD 2 0 <<< 8 + (readFrame bus).getD 3 0⟩ ∧
      (readRegister bus addr s r).1 = true ∧
      (readRegister bus addr s r).2.2 =
        ⟨[(readFrame bus).getD 0 0, (readFrame bus).getD 1 0,
          (readFrame bus).getD 2 0, (readFrame bus).getD 3 0],
         (readFrame bus).getD 4 0, true⟩) := by
  rcases hr : _readRegister bus s with ⟨b, s1⟩
  cases b
  · refine ⟨fun _ => ?_, fun h _ => by simp at h, fun h _ => by simp at h⟩
    simp [getZeroCalibrationData, readRegister, hr]
  · have h1 : bus.endStatus = 0 := by
      by_contra h
      rw [readRegister_low_eq] at hr
      simp [h] at hr
    have h2 : bus.avail = 5 := by
      by_contra h
      rw [readRegister_low_eq] at hr
      simp [h1, h] at hr
    have hs1 : s1 = { s with buffer := readFrame bus, error := AGS3870_OK } := by
      have h3 := readRegister_low_success bus s h1 h2
      rw [hr] at h3
      simpa using h3
    subst hs1
    refine ⟨fun h => by simp at h, fun _ hc => ?_, fun _ hc => ?_⟩ <;>
      simp [getZeroCalibrationData, readRegister, hr, hc, _getDataMSB, _getDataLSB]

set_option maxRecDepth 4000 in
theorem strict_decoders_atomic_witness :
    (getZeroCalibrationData crcFailBus initState ⟨11, 22⟩).1 = false ∧
    (getZeroCalibrationData crcFailBus initState ⟨11, 22⟩).2.2 = ⟨11, 22⟩ ∧
    (readRegister crcFailBus 1 initState ⟨[9, 9, 9, 9], 9, false⟩).1 = false ∧
    (readRegister crcFailBus 1 initState ⟨[9, 9, 9, 9], 9, false⟩).2.2 =
      ⟨[9, 9, 9, 9], 9, false⟩ :=
  (strict_decoders_atomic crcFailBus 1 initState ⟨11, 22⟩
    ⟨[9, 9, 9, 9], 9, false⟩).2.1 (by decide) (by decide)

/-- C5: PPM decode with status bit 0 set — the decoded value
byte[1]·65536 + byte[2]·256 + byte[3] is still computed and returned; the
error is not-ready when the CRC check passes, and is overwritten with
CRC-mismatch (taking precedence over not-ready) when it fails. -/
theorem ppm_decode_not_ready (bus : BusRead) (s : AGS3870)
    (hEnd : bus.endStatus = 0) (hAvail : bus.avail = 5)
    (hbit : (readFrame bus).getD 0 0 &&& 0x01 ≠ 0) :
    (_readSensor bus s).1 =
      (readFrame bus).getD 1 0 * 65536 + (readFrame bus).getD 2 0 * 256 +
        (readFrame bus).getD 3 0 ∧
    (_CRC8 (readFrame bus) 5 = 0 →
      (_readSensor bus s).2.error = AGS3870_ERROR_NOT_READY) ∧
    (_CRC8 (readFrame bus) 5 ≠ 0 →
      (_readSensor bus s).2.error = AGS3870_ERROR_CRC) := by
  rw [readSensor_success_eq bus s hEnd hAvail]
  refine ⟨rfl, fun hc => ?_, fun hc => ?_⟩
  · show (if _CRC8 (readFrame bus) 5 ≠ 0 then AGS3870_ERROR_CRC
        else if (readFrame bus).getD 0 0 &&& 0x01 ≠ 0 then AGS3870_ERROR_NOT_READY
        else AGS3870_OK) = AGS3870_ERROR_NOT_READY
    rw [if_neg (not_not_intro hc), if_pos hbit]
  · show (if _CRC8 (readFrame bus) 5 ≠ 0 then AGS3870_ERROR_CRC
        else if (readFrame bus).getD 0 0 &&& 0x01 ≠ 0 then AGS3870_ERROR_NOT_READY
        else AGS3870_OK) = AGS3870_ERROR_CRC
    rw [if_pos hc]

set_option maxRecDepth 4000 in
theorem ppm_decode_not_ready_witness :
    (_readSensor notReadyBus initState).1 = 2 ∧
    (_readSensor notReadyBus initState).2.error = AGS3870_ERROR_NOT_READY := by
  have h := ppm_decode_not_ready notReadyBus initState rfl rfl (by decide)
  exact ⟨h.1.trans (by decide), h.2.1 (by decide)⟩

/-- C6: `lastError()` returns the current error value and resets the slot
to OK, so a second consecutive call returns OK. -/
theorem lastError_consumes (s : AGS3870) :
    (lastError s).1 = s.error ∧
    (lastError s).2.error = AGS3870_OK ∧
    (lastError (lastError s).2).1 = AGS3870_OK :=
  ⟨rfl, rfl, rfl⟩

/-- C7: `_readRegister` — a failed close of the address write records the
transport status code as the error and fails without producing a frame
(the buffer is untouched); fewer than 5 available bytes records the
read-error and fails; otherwise the 5 received bytes are copied into the
buffer in order and the error is set to OK. -/
theorem readRegister_low_contract (bus : BusRead) (s : AGS3870) :
    _readRegister bus s =
      if bus.endStatus ≠ 0 then (false, { s with error := (bus.endStatus : Int) })
      else if bus.avail ≠ 5 then (false, { s with error := AGS3870_ERROR_READ })
      else (true, { s with buffer := readFrame bus, error := AGS3870_OK }) :=
  readRegister_low_eq bus s

/-- C8: resistance decode — on successful I/O the returned value is
(byte[0]·65536 + byte[1]·256 + byte[2]) · 10 with byte[3] unused; a CRC
failure records the CRC error but does not suppress the returned value. -/
theorem readResistance_decode (bus : BusRead) (s : AGS3870)
    (hEnd : bus.endStatus = 0) (hAvail : bus.avail = 5) :
    (readResistance bus s).1 =
      ((readFrame bus).getD 0 0 * 65536 + (readFrame bus).getD 1 0 * 256 +
        (readFrame bus).getD 2 0) * 10 ∧
    (_CRC8 (readFrame bus) 5 ≠ 0 →
      (readResistance bus s).2.error = AGS3870_ERROR_CRC) := by
  unfold readResistance
  rw [readRegister_low_success bus s hEnd hAvail]
  constructor
  · simp
  · intro hc
    simp [hc]

set_option maxRecDepth 4000 in
theorem readResistance_decode_witness :
    (readResistance resistanceBus initState).1 = 50 := by
  have h := readResistance_decode resistanceBus initState rfl rfl
  exact h.1.trans (by decide)

/-- C9: `manualZeroCalibration(value)` builds the frame
[0x00, 0x00, high byte, low byte, CRC-8 over the first four bytes] in the
buffer written to the calibration register, and returns true iff the
write's `endTransmission` succeeded. -/
theorem manualZeroCalibration_contract (bus : BusWrite) (value : Nat)
    (s : AGS3870) (hv : value < 65536) :
    (manualZeroCalibration bus value s).2.buffer =
      [0x00, 0x00, value >>> 8, value &&& 0xFF,
        _CRC8 [0x00, 0x00, value >>> 8, value &&& 0xFF] 4] ∧
    ((manualZeroCalibration bus value s).1 = true ↔ bus.endStatus = 0) := by
  have hdiv : value >>> 8 = value / 256 := by
    rw [Nat.shiftRight_eq_div_pow]
  have hhi : (value >>> 8) % 256 = value >>> 8 := by
    apply Nat.mod_eq_of_lt
    rw [hdiv]
    omega
  unfold manualZeroCalibration _writeRegister
  refine ⟨by simp [hhi], by simp⟩

set_option maxRecDepth 4000 in
theorem manualZeroCalibration_contract_witness :
    (manualZeroCalibration ⟨0⟩ 0x1234 initState).2.buffer =
      [0x00, 0x00, 0x12, 0x34, 97] ∧
    (manualZeroCalibration ⟨0⟩ 0x1234 initState).1 = true := by
  have h := manualZeroCalibration_contract ⟨0⟩ 0x1234 initState (by decide)
  exact ⟨h.1.trans (by decide), h.2.mpr rfl⟩

/-- C10: when the underlying register read fails (transport error or
short read), `readResistance()` returns exactly 0, the same value a
legitimate raw reading of zero would produce; the error slot, however, is
left non-OK. -/
theorem readResistance_zero_on_failure (bus : BusRead) (s : AGS3870)
    (h : (_readRegister bus s).1 = false) :
    (readResistance bus s).1 = 0 ∧
    (readResistance bus s).2.error ≠ AGS3870_OK := by
  unfold readResistance
  rcases hr : _readRegister bus s with ⟨b, s1⟩
  rw [hr] at h
  cases b
  · refine ⟨by simp, ?_⟩
    rw [readRegister_low_eq] at hr
    split_ifs at hr with h1 h2
    · have h3 : ({ s with error := (bus.endStatus : Int) } : AGS3870) = s1 := by
        simpa using hr
      rw [← h3]
      simpa [AGS3870_OK] using h1
    · have h3 : ({ s with error := AGS3870_ERROR_READ } : AGS3870) = s1 := by
        simpa using hr
      rw [← h3]
      simp [AGS3870_OK, AGS3870_ERROR_READ]
    · simp at hr
  · simp at h

set_option maxRecDepth 4000 in
theorem readResistance_zero_on_failure_witness :
    (readResistance failBus initState).1 = 0 ∧
    (readResistance failBus initState).2.error ≠ AGS3870_OK :=
  readResistance_zero_on_failure failBus initState (by decide)

end AGS3870Spec
